import Mathlib

/- Shallow embedding of contacto31/ama-orquestador (src/index.js).

   src/index.js concatenates two parallel implementations of the orchestrator:
   implementation A (lines 1-1663) and implementation B (lines 1664-2715).
   Suffix A / B on the Lean names records which implementation a definition
   transcribes.  JavaScript numbers are modelled as Rat (exact rationals) in
   the handlers and as Real in the haversine geometry; a JS value that may be
   missing, null, undefined or of the wrong type is modelled as an Option;
   a network call that may throw is modelled as an Except passed in as an
   oracle argument.  Each handler of the HTTP layer is transcribed as a pure
   function from the per-vehicle state (plus the oracle results of its awaited
   calls) to the new state and the response. -/

/- ========== time-of-day parsing and window predicates ========== -/

/-- The pair of numeric fields produced by splitting an HH:MM string on the
colon and converting each part with Number (impl A, line 193) or parseInt
(impl B, line 1839).  A component is none when the conversion yielded NaN. -/
structure HoraHM where
  h : Option Nat
  m : Option Nat
deriving DecidableEq

/-- h*60+m with JavaScript NaN propagation: the total is NaN (none) as soon
as one component is NaN. -/
def HoraHM.minutos (t : HoraHM) : Option Nat :=
  match t.h, t.m with
  | some h, some m => some (h * 60 + m)
  | _, _ => none

/-- The fields of a luxon local DateTime that the window predicates read:
weekday (1 = Monday .. 7 = Sunday, luxon convention), hour and minute. -/
structure DtLocal where
  weekday : Nat
  hour : Nat
  minute : Nat
deriving DecidableEq

/-- Implementation A, src/index.js lines 191-207 (horaDentroDeVentana).
horaInicio / horaFin are none when the original string was absent or empty
(falsy); a present string carries its split-and-Number fields.  Returns true
when either bound is missing or fails to parse (fail-open), else performs the
minute-range check, with wrap-around when inicio exceeds fin. -/
def horaDentroDeVentana (horaInicio horaFin : Option HoraHM) (dtLocal : DtLocal) : Bool :=
  match horaInicio, horaFin with
  | none, _ => true
  | _, none => true
  | some hIni, some hFin =>
    let minutosActual := dtLocal.hour * 60 + dtLocal.minute
    match hIni.minutos, hFin.minutos with
    | some minutosIni, some minutosFin =>
      if minutosIni ≤ minutosFin then
        decide (minutosIni ≤ minutosActual) && decide (minutosActual ≤ minutosFin)
      else
        decide (minutosActual ≥ minutosIni) || decide (minutosActual ≤ minutosFin)
    | _, _ => true

/-- Implementation B, src/index.js lines 1828-1836 (MAP_DIA). -/
def MAP_DIA (d : String) : Option Nat :=
  if d = "LU" then some 1
  else if d = "MA" then some 2
  else if d = "MI" then some 3
  else if d = "JU" then some 4
  else if d = "VI" then some 5
  else if d = "SA" then some 6
  else if d = "DO" then some 7
  else none

/-- Implementation B, src/index.js lines 1838-1842 (horaEnMinutos): null when
either split component is NaN, else h*60+m. -/
def horaEnMinutos (hhmm : HoraHM) : Option Nat :=
  match hhmm.h, hhmm.m with
  | some h, some m => some (h * 60 + m)
  | _, _ => none

/-- The window-relevant fields of a zone as estaEnVentanaHorario reads them.
A none field models a falsy (missing) diasSemana / horaInicio / horaFin. -/
structure ZonaVentana where
  diasSemana : Option (List String)
  horaInicio : Option HoraHM
  horaFin : Option HoraHM
deriving DecidableEq

/-- Implementation B, src/index.js lines 1844-1864 (estaEnVentanaHorario).
Missing zone fields give false; a day outside diasSemana gives false; an
HH:MM bound that parses to NaN gives false (fail-closed), else the minute
range check with wrap-around. -/
def estaEnVentanaHorario (zona : ZonaVentana) (dtLocal : DtLocal) : Bool :=
  match zona.diasSemana, zona.horaInicio, zona.horaFin with
  | some dias, some hIni, some hFin =>
    let codigosDia := (dias.map MAP_DIA).filterMap id
    if ¬ codigosDia.contains dtLocal.weekday then false
    else
      let hm := dtLocal.hour * 60 + dtLocal.minute
      match horaEnMinutos hIni, horaEnMinutos hFin with
      | some inicio, some fin =>
        if inicio ≤ fin then decide (inicio ≤ hm) && decide (hm ≤ fin)
        else decide (hm ≥ inicio) || decide (hm ≤ fin)
      | _, _ => false
  | _, _, _ => false

/- ========== implementation A geofence state machine ========== -/

/-- The per-vehicle geofence state stored in the in-memory map ESTADO_ZONA of
implementation A (src/index.js line 71): desconocido, dentro, fuera or
fuera_horario. -/
inductive EstadoZona
  | desconocido
  | dentro
  | fuera
  | fueraHorario
deriving DecidableEq

/-- The verdict one scheduler tick derives for a vehicle in implementation A
(lines 299-346): fueraVentana when the day/window does not apply, else dentro
or fuera according to whether the haversine distance to the zone centre
exceeds radio_interno_m.  A tick whose position fetch fails produces no
verdict and leaves the state untouched (lines 318-335), so such ticks do not
appear in a verdict sequence. -/
inductive Veredicto
  | fueraVentana
  | dentro
  | fuera
deriving DecidableEq

/-- Loop body of evaluarZonasSegurasYGenerarEventos, src/index.js lines
309-361, for one vehicle and one verdict: the new ESTADO_ZONA entry and
whether the tick emits a FUERA_DE_ZONA_SEGURA notification (the call to
enviarEventoSalidaZonaSegura at line 353, guarded by
nuevoEstado === fuera and prevEstado === dentro at line 352). -/
def aplicarVeredictoA (prev : EstadoZona) : Veredicto → EstadoZona × Bool
  | .fueraVentana => (.fueraHorario, false)
  | .dentro => (.dentro, false)
  | .fuera => (.fuera, decide (prev = .dentro))

/-- The ESTADO_ZONA entry after a sequence of verdicts. -/
def estadoTrasA (s : EstadoZona) (vs : List Veredicto) : EstadoZona :=
  vs.foldl (fun e v => (aplicarVeredictoA e v).1) s

/-- Number of breach notifications implementation A emits along a verdict
sequence starting from state s. -/
def notifsA (s : EstadoZona) : List Veredicto → Nat
  | [] => 0
  | v :: vs =>
    (if (aplicarVeredictoA s v).2 then 1 else 0) + notifsA (aplicarVeredictoA s v).1 vs

/-- Claim-side count: the number of dentro to fuera edges of the state
trajectory induced by a verdict sequence. -/
def edgesDentroFueraA (s : EstadoZona) : List Veredicto → Nat
  | [] => 0
  | v :: vs =>
    (if s = .dentro ∧ (aplicarVeredictoA s v).1 = .fuera then 1 else 0) +
      edgesDentroFueraA (aplicarVeredictoA s v).1 vs

/-- Whether the step at index i of a verdict sequence emits a notification. -/
def emiteEnA (s : EstadoZona) (vs : List Veredicto) (i : Nat) : Bool :=
  (aplicarVeredictoA (estadoTrasA s (vs.take i)) (vs.getD i .fueraVentana)).2

/- ========== implementation B geofence step ========== -/

/-- Core of evaluarZonaSeguraParaVehiculo, src/index.js lines 2633-2667,
after a successful position fetch, as a function of the stored
zona.ultimaAlertaActiva flag and the tick observation (aplicaVentana, fuera):
returns the new flag and whether a FUERA_DE_ZONA_SEGURA notification is
posted (line 2652).  The flag is set when the vehicle is outside during the
window and cleared on every other observation, including out-of-window
ones. -/
def pasoZonaB (ultimaAlertaActiva aplicaVentana fuera : Bool) : Bool × Bool :=
  if aplicaVentana && fuera then
    if !ultimaAlertaActiva then (true, true) else (true, false)
  else (false, false)

/-- Notifications implementation B emits along a sequence of
(aplicaVentana, fuera) observations starting from a given flag value. -/
def notifsB (flag : Bool) : List (Bool × Bool) → Nat
  | [] => 0
  | o :: os =>
    (if (pasoZonaB flag o.1 o.2).2 then 1 else 0) + notifsB (pasoZonaB flag o.1 o.2).1 os

/-- Claim-side count for implementation B: an inside to outside edge of the
observation sequence, where inside means in-window and not fuera and outside
means in-window and fuera; prevDentro records whether the previous
observation was inside. -/
def edgesDentroFueraB (prevDentro : Bool) : List (Bool × Bool) → Nat
  | [] => 0
  | o :: os =>
    (if prevDentro && (o.1 && o.2) then 1 else 0) + edgesDentroFueraB (o.1 && !o.2) os

/- ========== haversine distance (both implementations) ========== -/

/-- Degrees to radians, src/index.js lines 175-177 and 1815. -/
noncomputable def toRad (g : ℝ) : ℝ := g * Real.pi / 180

/-- JavaScript Math.atan2 on real arguments. -/
noncomputable def atan2 (y x : ℝ) : ℝ :=
  if 0 < x then Real.arctan (y / x)
  else if x < 0 ∧ 0 ≤ y then Real.arctan (y / x) + Real.pi
  else if x < 0 ∧ y < 0 then Real.arctan (y / x) - Real.pi
  else if x = 0 ∧ 0 < y then Real.pi / 2
  else if x = 0 ∧ y < 0 then -(Real.pi / 2)
  else 0

/-- The haversine intermediate a of distanciaMetros, src/index.js lines
181-186 (identically lines 1818-1823). -/
noncomputable def haversineA (lat1 lon1 lat2 lon2 : ℝ) : ℝ :=
  Real.sin (toRad (lat2 - lat1) / 2) * Real.sin (toRad (lat2 - lat1) / 2) +
    Real.cos (toRad lat1) * Real.cos (toRad lat2) *
      Real.sin (toRad (lon2 - lon1) / 2) * Real.sin (toRad (lon2 - lon1) / 2)

/-- distanciaMetros, src/index.js lines 174-189; implementation B repeats the
same formula verbatim at lines 1813-1826, so a single definition models
both.  R = 6371000 m, c = 2 * atan2(sqrt a, sqrt (1 - a)), result R * c. -/
noncomputable def distanciaMetros (lat1 lon1 lat2 lon2 : ℝ) : ℝ :=
  6371000 * (2 * atan2 (Real.sqrt (haversineA lat1 lon1 lat2 lon2))
    (Real.sqrt (1 - haversineA lat1 lon1 lat2 lon2)))

theorem haversineA_symm (lat1 lon1 lat2 lon2 : ℝ) :
    haversineA lat2 lon2 lat1 lon1 = haversineA lat1 lon1 lat2 lon2 := by
  unfold haversineA
  rw [show toRad (lat1 - lat2) / 2 = -(toRad (lat2 - lat1) / 2) by unfold toRad; ring,
    show toRad (lon1 - lon2) / 2 = -(toRad (lon2 - lon1) / 2) by unfold toRad; ring]
  simp only [Real.sin_neg]
  ring

theorem haversineA_self (lat lon : ℝ) : haversineA lat lon lat lon = 0 := by
  unfold haversineA toRad
  simp

theorem atan2_zero_one : atan2 0 1 = 0 := by
  unfold atan2
  norm_num

/- ========== lemmas on the implementation A step ========== -/

theorem aplicarVeredictoA_emite (s : EstadoZona) (v : Veredicto) :
    (aplicarVeredictoA s v).2 = true ↔ s = .dentro ∧ v = .fuera := by
  cases s <;> cases v <;> simp [aplicarVeredictoA]

theorem aplicarVeredictoA_dentro (s : EstadoZona) (v : Veredicto) :
    (aplicarVeredictoA s v).1 = .dentro ↔ v = .dentro := by
  cases s <;> cases v <;> simp [aplicarVeredictoA]

theorem notifsA_eq_edges (s : EstadoZona) (vs : List Veredicto) :
    notifsA s vs = edgesDentroFueraA s vs := by
  induction vs generalizing s with
  | nil => rfl
  | cons v vs ih =>
    simp only [notifsA, edgesDentroFueraA, ih]
    congr 1
    cases s <;> cases v <;> simp [aplicarVeredictoA]

theorem estadoTrasA_cons (s : EstadoZona) (v : Veredicto) (vs : List Veredicto) :
    estadoTrasA s (v :: vs) = estadoTrasA (aplicarVeredictoA s v).1 vs := rfl

theorem estadoTrasA_take_succ (s : EstadoZona) (vs : List Veredicto) (k : Nat)
    (hk : k < vs.length) :
    estadoTrasA s (vs.take (k + 1)) =
      (aplicarVeredictoA (estadoTrasA s (vs.take k)) (vs.getD k .fueraVentana)).1 := by
  induction vs generalizing s k with
  | nil => simp at hk
  | cons v vs ih =>
    cases k with
    | zero => rfl
    | succ k =>
      rw [List.take_succ_cons, List.take_succ_cons, estadoTrasA_cons, estadoTrasA_cons,
        List.getD_cons_succ]
      exact ih _ k (by simpa using hk)

/-- Re-arming in implementation A: between any two emitting steps there is a
dentro verdict, i.e. a new notification fires only after the vehicle has
come back inside. -/
theorem rearmeA (s : EstadoZona) (vs : List Veredicto) (i j : Nat)
    (hij : i < j) (hj : j < vs.length)
    (hi : emiteEnA s vs i = true) (hjE : emiteEnA s vs j = true) :
    ∃ k, i < k ∧ k < j ∧ vs.getD k .fueraVentana = .dentro := by
  unfold emiteEnA at hi hjE
  have hiP := (aplicarVeredictoA_emite _ _).1 hi
  have hjP := (aplicarVeredictoA_emite _ _).1 hjE
  obtain ⟨m, rfl⟩ : ∃ m, j = m + 1 := ⟨j - 1, by omega⟩
  have hm : m < vs.length := by omega
  have hstep : estadoTrasA s (vs.take (m + 1)) =
      (aplicarVeredictoA (estadoTrasA s (vs.take m)) (vs.getD m .fueraVentana)).1 :=
    estadoTrasA_take_succ s vs m hm
  have hmd : vs.getD m .fueraVentana = .dentro := by
    have hd := hjP.1
    rw [hstep] at hd
    exact (aplicarVeredictoA_dentro _ _).1 hd
  refine ⟨m, ?_, by omega, hmd⟩
  rcases Nat.lt_or_ge i m with h | h
  · exact h
  · have : i = m := by omega
    subst this
    rw [hiP.2] at hmd
    exact absurd hmd (by decide)

/- ========== claim C9 ========== -/

/-- C9: the haversine distance of the source (distanciaMetros, identical in
both implementations) is symmetric in its two coordinate pairs and is zero
when the two points coincide. -/
theorem c9_distancia_simetrica_y_cero :
    (∀ lat1 lon1 lat2 lon2 : ℝ,
      distanciaMetros lat1 lon1 lat2 lon2 = distanciaMetros lat2 lon2 lat1 lon1) ∧
    (∀ lat lon : ℝ, distanciaMetros lat lon lat lon = 0) := by
  constructor
  · intro lat1 lon1 lat2 lon2
    unfold distanciaMetros
    rw [haversineA_symm]
  · intro lat lon
    unfold distanciaMetros
    rw [haversineA_self]
    norm_num [atan2_zero_one]

/- ========== claim C1 ========== -/

/-- C1 counterexample: in implementation B (evaluarZonaSeguraParaVehiculo), a
single in-window outside observation applied to a freshly configured zone
(ultimaAlertaActiva = false) emits one breach notification although the
observation sequence contains no dentro to fuera edge at all, so the
notification count does not equal the number of inside-to-outside
transitions. -/
theorem c1_contraejemplo :
    notifsB false [(true, true)] = 1 ∧ edgesDentroFueraB false [(true, true)] = 0 := by
  decide

/-- C1 (amended): implementation A (evaluarZonasSegurasYGenerarEventos)
satisfies the claim in full: along every verdict sequence the number of
notifications equals the number of dentro to fuera edges of the induced state
trajectory, and between any two emitting ticks there is a dentro verdict, so
consecutive fuera verdicts never re-emit and a new notification requires a
return inside.  Implementation B (evaluarZonaSeguraParaVehiculo) instead
emits exactly when its ultimaAlertaActiva flag is clear and the observation
is in-window outside; since the flag starts clear and is also cleared by
out-of-window observations, it can emit without any prior inside
observation. -/
theorem c1_enmendada :
    (∀ (s : EstadoZona) (vs : List Veredicto), notifsA s vs = edgesDentroFueraA s vs) ∧
    (∀ (s : EstadoZona) (vs : List Veredicto) (i j : Nat), i < j → j < vs.length →
      emiteEnA s vs i = true → emiteEnA s vs j = true →
      ∃ k, i < k ∧ k < j ∧ vs.getD k .fueraVentana = .dentro) ∧
    (∀ flag ventana fuera : Bool,
      (pasoZonaB flag ventana fuera).2 = (!flag && (ventana && fuera))) := by
  refine ⟨notifsA_eq_edges, rearmeA, ?_⟩
  decide

theorem c1_enmendada_witness :
    ∃ k, 0 < k ∧ k < 2 ∧
      [Veredicto.fuera, Veredicto.dentro, Veredicto.fuera].getD k Veredicto.fueraVentana
        = Veredicto.dentro :=
  c1_enmendada.2.1 EstadoZona.dentro [Veredicto.fuera, Veredicto.dentro, Veredicto.fuera]
    0 2 (by decide) (by decide) (by decide) (by decide)

/- ========== claim C3 ========== -/

/-- C3 counterexample: a window whose start has a NaN hour component makes
estaEnVentanaHorario (implementation B) return false on a matching day, not
true, so the fail-open policy does not hold in both implementations;
horaDentroDeVentana (implementation A) does return true on the same malformed
bounds. -/
theorem c3_contraejemplo :
    estaEnVentanaHorario
        ⟨some ["LU"], some ⟨none, some 0⟩, some ⟨some 23, some 59⟩⟩ ⟨1, 12, 0⟩ = false ∧
      horaDentroDeVentana (some ⟨none, some 0⟩) (some ⟨some 23, some 59⟩) ⟨1, 12, 0⟩ = true := by
  decide

/-- C3 (amended): the fail-open treatment of an absent or unparseable window
holds only in implementation A: horaDentroDeVentana returns true whenever a
bound is missing or parses to NaN, while implementation B's
estaEnVentanaHorario is fail-closed and returns false on every such input. -/
theorem c3_enmendada :
    (∀ (hFin : Option HoraHM) (dt : DtLocal), horaDentroDeVentana none hFin dt = true) ∧
    (∀ (hIni : Option HoraHM) (dt : DtLocal), horaDentroDeVentana hIni none dt = true) ∧
    (∀ (a b : HoraHM) (dt : DtLocal), a.minutos = none ∨ b.minutos = none →
      horaDentroDeVentana (some a) (some b) dt = true) ∧
    (∀ (zona : ZonaVentana) (dt : DtLocal),
      zona.diasSemana = none ∨ zona.horaInicio = none ∨ zona.horaFin = none →
      estaEnVentanaHorario zona dt = false) ∧
    (∀ (zona : ZonaVentana) (a b : HoraHM) (dt : DtLocal),
      zona.horaInicio = some a → zona.horaFin = some b →
      horaEnMinutos a = none ∨ horaEnMinutos b = none →
      estaEnVentanaHorario zona dt = false) := by
  refine ⟨?_, ?_, ?_, ?_, ?_⟩
  · intro hFin dt
    cases hFin <;> rfl
  · intro hIni dt
    cases hIni <;> rfl
  · intro a b dt h
    cases ha : a.minutos <;> cases hb : b.minutos <;> simp_all [horaDentroDeVentana]
  · intro zona dt h
    obtain ⟨ds, hi, hf⟩ := zona
    cases ds <;> cases hi <;> cases hf <;> simp_all [estaEnVentanaHorario]
  · intro zona a b dt h1 h2 h3
    obtain ⟨ds, hi, hf⟩ := zona
    simp only at h1 h2
    subst h1
    subst h2
    cases ds <;> rcases h3 with h3 | h3 <;> simp_all [estaEnVentanaHorario]

theorem c3_enmendada_witness :
    horaDentroDeVentana (some ⟨none, some 5⟩) (some ⟨some 10, some 0⟩) ⟨1, 3, 4⟩ = true ∧
      estaEnVentanaHorario
        ⟨some ["MA"], some ⟨some 1, none⟩, some ⟨some 2, some 0⟩⟩ ⟨2, 1, 30⟩ = false :=
  ⟨c3_enmendada.2.2.1 ⟨none, some 5⟩ ⟨some 10, some 0⟩ ⟨1, 3, 4⟩ (Or.inl rfl),
    c3_enmendada.2.2.2.2 ⟨some ["MA"], some ⟨some 1, none⟩, some ⟨some 2, some 0⟩⟩
      ⟨some 1, none⟩ ⟨some 2, some 0⟩ ⟨2, 1, 30⟩ rfl rfl (Or.inl rfl)⟩

/- ========== data model, implementation A ========== -/

/-- Runtime cutoff state, the values stored in the ESTADO_CORTE map of
implementation A (src/index.js line 70) and in the estado_corte field of
implementation B. -/
inductive EstadoCorte
  | normal
  | cortado
deriving DecidableEq

/-- JavaScript truthiness on an optional string: an absent value or the empty
string is falsy and collapses to null under expressions such as causa || null
(src/index.js lines 1489-1490). -/
def truthyStr (s : Option String) : Option String :=
  match s with
  | some v => if v = "" then none else some v
  | none => none

/-- knotsToKmh, src/index.js lines 215-218: null for a non-numeric input,
else knots * 1.852. -/
def knotsToKmh (knots : Option Rat) : Option Rat :=
  match knots with
  | some k => some (k * (1852 / 1000))
  | none => none

/-- A zone centre: latitude and longitude fixed at configuration time. -/
structure Centro where
  lat : Rat
  lon : Rat
deriving DecidableEq

/-- The zonaSegura record implementation A persists per vehicle
(src/index.js lines 1202-1211). -/
structure ZonaA where
  nombre : String
  centro : Centro
  radio_cliente_m : Rat
  radio_interno_m : Rat
  diasSemana : List String
  horaInicio : String
  horaFin : String
  activo : Bool
deriving DecidableEq

/-- The subset of zone fields returned as zona_actual when configuration is
refused pending confirmation (src/index.js lines 1163-1170). -/
structure ZonaResumen where
  nombre : String
  radio_cliente_m : Rat
  diasSemana : List String
  horaInicio : String
  horaFin : String
  activo : Bool
deriving DecidableEq

def ZonaA.resumen (z : ZonaA) : ZonaResumen :=
  ⟨z.nombre, z.radio_cliente_m, z.diasSemana, z.horaInicio, z.horaFin, z.activo⟩

/-- The audit snapshot stored as ultimaUbicacionCierre when an incident is
closed (src/index.js lines 1580-1585). -/
structure UbicacionCierre where
  lat : Rat
  lon : Rat
  hora_utc : Option String
  hora_local : Option String
deriving DecidableEq

/-- The siniestro record of implementation A (src/index.js lines 1487-1495
and 1601-1608). -/
structure SiniestroA where
  activo : Bool
  causa : Option String
  canal : Option String
  horaInicio : Option String
  horaCierre : Option String
  resultado : Option String
  ultimaUbicacionCierre : Option UbicacionCierre
deriving DecidableEq

/-- A VEHICULOS entry of implementation A (src/index.js lines 454-471). -/
structure VehiculoA where
  contratoId : String
  tipoCliente : String
  numeroUnidad : Nat
  nombreTitular : String
  aliasUnidad : String
  uniqueId : Option String
  activo : Bool
  motivoInactivacion : Option String
  fechaAlta : Option String
  fechaInactivacion : Option String
  fechaReactivacion : Option String
  fechaCambioUniqueId : Option String
  fechaLiberacionUniqueId : Option String
  zonaSegura : Option ZonaA
  modoSiniestro : Bool
  siniestro : Option SiniestroA
deriving DecidableEq

/-- The fields of a Traccar position that the implementation A handlers read:
coordinates and the raw speed in knots (speed is none when absent or not a
number). -/
structure PosicionA where
  latitude : Rat
  longitude : Rat
  speed : Option Rat
deriving DecidableEq

/- ========== data model, implementation B ========== -/

/-- Result of obtenerUltimaPosicionTraccar, src/index.js lines 1738-1775:
coordinates, speed already converted to km/h (null when the raw speed is not
a number), and the UTC / local timestamps. -/
structure PosB where
  lat : Rat
  lon : Rat
  velocidadKmh : Option Rat
  utc : String
  localIso : String
deriving DecidableEq

/-- The zonaSegura record of implementation B (src/index.js lines
2437-2447), which carries the re-arm flag ultimaAlertaActiva. -/
structure ZonaB where
  nombre : String
  centro : Centro
  radio_cliente_m : Int
  radio_interno_m : Int
  diasSemana : List String
  horaInicio : String
  horaFin : String
  activo : Bool
  ultimaAlertaActiva : Bool
deriving DecidableEq

/-- The siniestro record of implementation B (src/index.js lines 2263-2271). -/
structure SiniestroB where
  activo : Bool
  causa : Option String
  canal : Option String
  detalle : Option String
  iniciadoEn : Option String
  cerradoEn : Option String
  resultado : Option String
deriving DecidableEq

/-- A vehiculos entry of implementation B (src/index.js lines 1895-1910).
estado_corte is none until the first cutoff or resume writes it. -/
structure VehiculoB where
  contratoId : String
  tipoCliente : String
  nombreTitular : String
  aliasUnidad : String
  nombre_mostrado : String
  uniqueId : Option String
  traccarDeviceId : Option Nat
  activo : Bool
  motivo_baja : Option String
  zonaSegura : Option ZonaB
  siniestro : Option SiniestroB
  estado_corte : Option EstadoCorte
deriving DecidableEq

/- ========== cutoff, resume, location handlers ========== -/

/-- Safety threshold for remote cutoff, src/index.js line 59. -/
def CORTE_UMBRAL_KMH : Rat := 20

inductive RespCorteA
  | inactivo409
  | sinUniqueId409
  | errorComando500
  | ok (comandoId : Nat) (velocidadKmh : Option Rat) (cortePuedeDemorar : Bool)
deriving DecidableEq

/-- POST corte, implementation A, src/index.js lines 934-1003.  Oracles:
posicion is the outcome of the best-effort getDeviceAndPositionByUniqueId
call (error = the call threw, caught at line 966; ok none = no position or
non-numeric speed) and comando the outcome of sendCommandToDevice.  Returns
the new ESTADO_CORTE entry, the response, and whether the send-command call
was reached. -/
def corteA (config : VehiculoA) (estadoCorte : EstadoCorte)
    (posicion : Except Unit (Option PosicionA)) (comando : Except Unit Nat) :
    EstadoCorte × RespCorteA × Bool :=
  if config.activo = false then (estadoCorte, .inactivo409, false)
  else if config.uniqueId = none then (estadoCorte, .sinUniqueId409, false)
  else
    let velocidadKmh : Option Rat :=
      match posicion with
      | .ok (some p) => knotsToKmh p.speed
      | _ => none
    match comando with
    | .error _ => (estadoCorte, .errorComando500, true)
    | .ok cid =>
      let superaUmbral :=
        match velocidadKmh with
        | some v => decide (v > CORTE_UMBRAL_KMH)
        | none => false
      (EstadoCorte.cortado, .ok cid velocidadKmh superaUmbral, true)

inductive RespReanudarA
  | inactivo409
  | sinUniqueId409
  | error500
  | ok (comandoId : Nat)
deriving DecidableEq

/-- POST reanudar, implementation A, src/index.js lines 1005-1059. -/
def reanudarA (config : VehiculoA) (estadoCorte : EstadoCorte)
    (comando : Except Unit Nat) : EstadoCorte × RespReanudarA × Bool :=
  if config.activo = false then (estadoCorte, .inactivo409, false)
  else if config.uniqueId = none then (estadoCorte, .sinUniqueId409, false)
  else
    match comando with
    | .error _ => (estadoCorte, .error500, true)
    | .ok cid => (EstadoCorte.normal, .ok cid, true)

inductive RespUbicA
  | inactivo409
  | sinUniqueId409
  | error500
  | ok (velocidadKmh : Option Rat)
deriving DecidableEq

/-- GET ubicacion, implementation A, src/index.js lines 818-905.  The handler
mutates nothing; the Bool records whether the position fetch was reached. -/
def ubicacionA (config : VehiculoA) (fetch : Except Unit (Option PosicionA)) :
    RespUbicA × Bool :=
  if config.activo = false then (.inactivo409, false)
  else if config.uniqueId = none then (.sinUniqueId409, false)
  else
    match fetch with
    | .error _ => (.error500, true)
    | .ok (some pos) => (.ok (knotsToKmh pos.speed), true)
    | .ok none => (.ok none, true)

inductive RespReactivarA
  | sinUniqueId409
  | yaActivo
  | ok
deriving DecidableEq

/-- POST reactivar, implementation A, src/index.js lines 551-592. -/
def reactivarA (config : VehiculoA) (ahora : String) : VehiculoA × RespReactivarA :=
  if config.uniqueId = none then (config, .sinUniqueId409)
  else if config.activo = true then (config, .yaActivo)
  else
    ({ config with
        activo := true, motivoInactivacion := none,
        fechaReactivacion := some ahora }, .ok)

inductive RespLiberarA
  | noInactivo409
  | sinUniqueId409
  | ok (uniqueIdLiberado : String)
deriving DecidableEq

/-- POST liberar-dispositivo, implementation A, src/index.js lines 684-723. -/
def liberarDispositivoA (config : VehiculoA) (ahora : String) :
    VehiculoA × RespLiberarA :=
  if config.activo = true then (config, .noInactivo409)
  else
    match config.uniqueId with
    | none => (config, .sinUniqueId409)
    | some uid =>
      ({ config with uniqueId := none, fechaLiberacionUniqueId := some ahora }, .ok uid)

inductive RespCorteB
  | inactivo409
  | sinDevice409
  | error500
  | ok (velocidadKmh : Rat) (cortePuedeDemorar : Bool)
deriving DecidableEq

/-- POST corte, implementation B, src/index.js lines 2165-2209.  The position
fetch here is not guarded: if obtenerUltimaPosicionTraccar throws, the outer
catch answers 500 before any command is sent.  A missing speed is replaced by
0 (pos.velocidadKmh || 0, line 2184). -/
def corteB (v : VehiculoB) (posicion : Except Unit PosB) (comando : Except Unit Unit) :
    VehiculoB × RespCorteB × Bool :=
  if v.activo = false then (v, .inactivo409, false)
  else if v.traccarDeviceId = none then (v, .sinDevice409, false)
  else
    match posicion with
    | .error _ => (v, .error500, false)
    | .ok pos =>
      let velocidad := pos.velocidadKmh.getD 0
      let cortePuedeDemorar := decide (velocidad > 20)
      match comando with
      | .error _ => (v, .error500, true)
      | .ok _ =>
        ({ v with estado_corte := some .cortado }, .ok velocidad cortePuedeDemorar, true)

inductive RespReanudarB
  | sinDevice409
  | error500
  | ok
deriving DecidableEq

/-- POST reanudar, implementation B, src/index.js lines 2211-2244.  Note the
handler never consults v.activo. -/
def reanudarB (v : VehiculoB) (comando : Except Unit Unit) :
    VehiculoB × RespReanudarB × Bool :=
  if v.traccarDeviceId = none then (v, .sinDevice409, false)
  else
    match comando with
    | .error _ => (v, .error500, true)
    | .ok _ => ({ v with estado_corte := some .normal }, .ok, true)

inductive RespUbicB
  | inactivo409
  | sinDevice409
  | error500
  | ok
deriving DecidableEq

/-- GET ubicacion, implementation B, src/index.js lines 2103-2145. -/
def ubicacionB (v : VehiculoB) (fetch : Except Unit PosB) : RespUbicB × Bool :=
  if v.activo = false then (.inactivo409, false)
  else if v.traccarDeviceId = none then (.sinDevice409, false)
  else
    match fetch with
    | .error _ => (.error500, true)
    | .ok _ => (.ok, true)

/- ========== concrete sample records ========== -/

def vehiculoEjA : VehiculoA :=
  { contratoId := "C-1", tipoCliente := "individual", numeroUnidad := 1,
    nombreTitular := "Tomas", aliasUnidad := "Unidad 1", uniqueId := some "imei-1",
    activo := true, motivoInactivacion := none, fechaAlta := some "2024-01-01",
    fechaInactivacion := none, fechaReactivacion := none, fechaCambioUniqueId := none,
    fechaLiberacionUniqueId := none, zonaSegura := none, modoSiniestro := false,
    siniestro := none }

def vehiculoEjB : VehiculoB :=
  { contratoId := "C-2", tipoCliente := "individual", nombreTitular := "Rita",
    aliasUnidad := "U2", nombre_mostrado := "U2", uniqueId := some "imei-2",
    traccarDeviceId := some 7, activo := true, motivo_baja := none,
    zonaSegura := none, siniestro := none, estado_corte := none }

/- ========== claim C5 ========== -/

/-- C5 counterexample: in implementation B a cutoff on an active vehicle with
a device aborts with a 500 when the speed fetch fails: no cutoff command is
dispatched and the cutoff state is not set. -/
theorem c5_contraejemplo :
    corteB vehiculoEjB (.error ()) (.ok ()) = (vehiculoEjB, .error500, false) := by
  rfl

/-- C5 (amended): in implementation A a speed-fetch failure does not abort
the cutoff: the command is still dispatched, ESTADO_CORTE becomes cortado,
the reported speed is null and corte_puede_demorar is false; when a speed is
obtained the flag equals (speed in km/h) > 20.  In implementation B the
position fetch is mandatory: its failure aborts the request with a 500
before any command is dispatched and leaves the vehicle unchanged. -/
theorem c5_enmendada :
    (∀ (config : VehiculoA) (e : EstadoCorte) (cid : Nat),
      config.activo = true → config.uniqueId ≠ none →
      corteA config e (.error ()) (.ok cid) = (.cortado, .ok cid none false, true)) ∧
    (∀ (config : VehiculoA) (e : EstadoCorte) (cid : Nat) (p : PosicionA) (s : Rat),
      config.activo = true → config.uniqueId ≠ none → p.speed = some s →
      corteA config e (.ok (some p)) (.ok cid) =
        (.cortado, .ok cid (some (s * (1852 / 1000)))
          (decide (s * (1852 / 1000) > CORTE_UMBRAL_KMH)), true)) ∧
    (∀ (v : VehiculoB) (comando : Except Unit Unit),
      v.activo = true → v.traccarDeviceId ≠ none →
      corteB v (.error ()) comando = (v, .error500, false)) := by
  refine ⟨?_, ?_, ?_⟩
  · intro config e cid h1 h2
    simp [corteA, h1, h2]
  · intro config e cid p s h1 h2 h3
    simp [corteA, h1, h2, h3, knotsToKmh]
  · intro v comando h1 h2
    simp [corteB, h1, h2]

theorem c5_enmendada_witness :
    corteA vehiculoEjA .normal (.error ()) (.ok 3) = (.cortado, .ok 3 none false, true) :=
  c5_enmendada.1 vehiculoEjA .normal 3 rfl (by simp [vehiculoEjA])

/- ========== zone configuration handlers ========== -/

/-- Valid weekday codes, src/index.js line 1126 and 2407. -/
def diasValidos : List String := ["LU", "MA", "MI", "JU", "VI", "SA", "DO"]

/-- Body of POST zona-segura as implementation A reads it; a none field
models a missing value or one of the wrong JavaScript type. -/
structure ZonaRequest where
  nombre : Option String
  limite_m : Option Rat
  diasAccion : Option (List String)
  horaInicio : Option String
  horaFin : Option String
  activo : Option Bool
  forzarSobreEscritura : Bool
deriving DecidableEq

inductive RespConfA
  | inactivo409
  | sinUniqueId409
  | badRequest400
  | requiereConfirmacion (zonaActual : ZonaResumen)
  | errorPosicion500
  | ok (zona : ZonaA)
deriving DecidableEq

/-- Tail of the zone-configuration handler of implementation A once all
validations and the confirmation check have passed, src/index.js lines
1176-1230: fetch the current position (error or no position answers 500),
persist the new zone anchored there and reset ESTADO_ZONA to desconocido
(line 1217). -/
def guardarNuevaZonaA (config : VehiculoA) (estadoZona : EstadoZona)
    (nombre : String) (limite : Rat) (dias : List String) (hIni hFin : String)
    (act : Bool) (posicion : Except Unit (Option Centro)) :
    VehiculoA × EstadoZona × RespConfA :=
  match posicion with
  | .error _ => (config, estadoZona, .errorPosicion500)
  | .ok none => (config, estadoZona, .errorPosicion500)
  | .ok (some c) =>
    let nuevaZona : ZonaA :=
      { nombre := nombre, centro := c,
        radio_cliente_m := limite, radio_interno_m := limite + 10,
        diasSemana := dias, horaInicio := hIni,
        horaFin := hFin, activo := act }
    ({ config with zonaSegura := some nuevaZona },
      EstadoZona.desconocido, .ok nuevaZona)

/-- POST zona-segura, implementation A, src/index.js lines 1066-1245.
posicion is the outcome of the position fetch used to anchor the new centre
(error = the call threw, ok none = no recent position; both answer 500).
The requiere_confirmacion branch (lines 1156-1174) fires only when the
existing zone is enabled and no overwrite flag was sent, and happens before
the fetch and before any mutation. -/
def configurarZonaSeguraA (config : VehiculoA) (estadoZona : EstadoZona)
    (req : ZonaRequest) (posicion : Except Unit (Option Centro)) :
    VehiculoA × EstadoZona × RespConfA :=
  if config.activo = false then (config, estadoZona, .inactivo409)
  else if config.uniqueId = none then (config, estadoZona, .sinUniqueId409)
  else if req.nombre.getD "" = "" then (config, estadoZona, .badRequest400)
  else
    match req.limite_m with
    | none => (config, estadoZona, .badRequest400)
    | some limite =>
      if limite < 20 ∨ 40 < limite then (config, estadoZona, .badRequest400)
      else
        match req.diasAccion with
        | none => (config, estadoZona, .badRequest400)
        | some dias =>
          if dias.isEmpty then (config, estadoZona, .badRequest400)
          else if dias.filter (fun d => ¬ diasValidos.contains d) ≠ [] then
            (config, estadoZona, .badRequest400)
          else if req.horaInicio.getD "" = "" then (config, estadoZona, .badRequest400)
          else if req.horaFin.getD "" = "" then (config, estadoZona, .badRequest400)
          else
            match req.activo with
            | none => (config, estadoZona, .badRequest400)
            | some act =>
              match config.zonaSegura with
              | some z =>
                if z.activo ∧ req.forzarSobreEscritura = false then
                  (config, estadoZona, .requiereConfirmacion z.resumen)
                else
                  guardarNuevaZonaA config estadoZona (req.nombre.getD "") limite dias
                    (req.horaInicio.getD "") (req.horaFin.getD "") act posicion
              | none =>
                guardarNuevaZonaA config estadoZona (req.nombre.getD "") limite dias
                  (req.horaInicio.getD "") (req.horaFin.getD "") act posicion

inductive RespDesactA
  | sinZona
  | yaDesactivada
  | ok (nombre : String)
deriving DecidableEq

/-- POST zona-segura desactivar, implementation A, src/index.js lines
1248-1299: a missing or already-disabled zone is a no-op; an enabled zone is
disabled and ESTADO_ZONA reset to desconocido (line 1286). -/
def desactivarZonaSeguraA (config : VehiculoA) (estadoZona : EstadoZona) :
    VehiculoA × EstadoZona × RespDesactA :=
  match config.zonaSegura with
  | none => (config, estadoZona, .sinZona)
  | some zona =>
    if zona.activo = false then (config, estadoZona, .yaDesactivada)
    else
      ({ config with zonaSegura := some { zona with activo := false } },
        EstadoZona.desconocido, .ok zona.nombre)

/-- Body of POST zona-segura as implementation B reads it; limite_m is the
parseInt result (none = NaN) and activo the truthiness of the raw field. -/
structure ZonaRequestB where
  nombre : Option String
  limite_m : Option Int
  diasAccion : Option (List String)
  horaInicio : Option String
  horaFin : Option String
  activo : Bool
  forzarSobreEscritura : Bool
deriving DecidableEq

inductive RespConfB
  | badRequest400
  | yaConfigurada409
  | sinDevice409
  | errorPos500
  | ok (zona : ZonaB)
deriving DecidableEq

/-- POST zona-segura, implementation B, src/index.js lines 2373-2471.  Any
existing zone (enabled or not) together with a missing overwrite flag is
answered with a 409 error that does not include the stored zone (lines
2420-2425); the position fetch is unguarded, so its failure answers 500. -/
def configurarZonaSeguraB (v : VehiculoB) (req : ZonaRequestB)
    (posicion : Except Unit PosB) : VehiculoB × RespConfB :=
  match req.limite_m with
  | none => (v, .badRequest400)
  | some limite =>
    if limite < 20 ∨ 40 < limite then (v, .badRequest400)
    else
      match req.diasAccion with
      | none => (v, .badRequest400)
      | some dias =>
        if dias.isEmpty then (v, .badRequest400)
        else if dias.filter (fun d => ¬ diasValidos.contains d) ≠ [] then
          (v, .badRequest400)
        else if req.horaInicio.getD "" = "" ∨ req.horaFin.getD "" = "" then
          (v, .badRequest400)
        else if v.zonaSegura ≠ none ∧ req.forzarSobreEscritura = false then
          (v, .yaConfigurada409)
        else if v.traccarDeviceId = none then (v, .sinDevice409)
        else
          match posicion with
          | .error _ => (v, .errorPos500)
          | .ok pos =>
            let zona : ZonaB :=
              { nombre := (truthyStr req.nombre).getD "Zona Segura",
                centro := ⟨pos.lat, pos.lon⟩,
                radio_cliente_m := limite, radio_interno_m := limite + 10,
                diasSemana := dias, horaInicio := req.horaInicio.getD "",
                horaFin := req.horaFin.getD "", activo := req.activo,
                ultimaAlertaActiva := false }
            ({ v with zonaSegura := some zona }, .ok zona)

/- ========== claim C2 ========== -/

/-- Whether a configure-zone response is the success response. -/
def RespConfA.esOk : RespConfA → Bool
  | .ok _ => true
  | _ => false

theorem guardarNuevaZonaA_desconocido (config : VehiculoA) (e : EstadoZona)
    (nombre : String) (limite : Rat) (dias : List String) (hIni hFin : String)
    (act : Bool) (pos : Except Unit (Option Centro))
    (_ : ((guardarNuevaZonaA config e nombre limite dias hIni hFin act pos).2.2).esOk
        = true) :
    (guardarNuevaZonaA config e nombre limite dias hIni hFin act pos).2.1
      = EstadoZona.desconocido := by
  rcases pos with _ | p
  · simp [guardarNuevaZonaA, RespConfA.esOk] at *
  · rcases p with _ | c
    · simp [guardarNuevaZonaA, RespConfA.esOk] at *
    · rfl

/-- C2: in implementation A a successful zone configuration and a successful
zone deactivation both reset ESTADO_ZONA to desconocido, and from the
desconocido state an outside verdict moves the state to fuera without
emitting a breach notification. -/
theorem c2_reset_desconocido :
    (∀ (config : VehiculoA) (e : EstadoZona) (req : ZonaRequest)
        (pos : Except Unit (Option Centro)),
      ((configurarZonaSeguraA config e req pos).2.2).esOk = true →
      (configurarZonaSeguraA config e req pos).2.1 = EstadoZona.desconocido) ∧
    (∀ (config : VehiculoA) (e : EstadoZona) (nombre : String),
      (desactivarZonaSeguraA config e).2.2 = RespDesactA.ok nombre →
      (desactivarZonaSeguraA config e).2.1 = EstadoZona.desconocido) ∧
    aplicarVeredictoA EstadoZona.desconocido Veredicto.fuera = (EstadoZona.fuera, false) := by
  refine ⟨?_, ?_, by decide⟩
  · intro config e req pos
    unfold configurarZonaSeguraA
    (repeat' split) <;>
      first
        | (intro h; simp [RespConfA.esOk] at h; done)
        | exact fun h => guardarNuevaZonaA_desconocido _ _ _ _ _ _ _ _ _ h
  · intro config e nombre
    unfold desactivarZonaSeguraA
    (repeat' split) <;> simp

def zonaReqEj : ZonaRequest :=
  { nombre := some "Casa", limite_m := some 25, diasAccion := some ["LU", "MA"],
    horaInicio := some "08:00", horaFin := some "20:00", activo := some true,
    forzarSobreEscritura := false }

theorem c2_reset_desconocido_witness :
    (configurarZonaSeguraA vehiculoEjA EstadoZona.dentro zonaReqEj
        (.ok (some ⟨19, -99⟩))).2.1 = EstadoZona.desconocido :=
  c2_reset_desconocido.1 vehiculoEjA EstadoZona.dentro zonaReqEj
    (.ok (some ⟨19, -99⟩)) (by rfl)

/- ========== claim C6 ========== -/

def zonaEjA : ZonaA :=
  { nombre := "Casa", centro := ⟨19, -99⟩, radio_cliente_m := 25, radio_interno_m := 35,
    diasSemana := ["LU"], horaInicio := "08:00", horaFin := "20:00", activo := true }

def vehiculoConZonaEjA : VehiculoA := { vehiculoEjA with zonaSegura := some zonaEjA }

def zonaEjB : ZonaB :=
  { nombre := "Casa", centro := ⟨19, -99⟩, radio_cliente_m := 25, radio_interno_m := 35,
    diasSemana := ["LU"], horaInicio := "08:00", horaFin := "20:00", activo := true,
    ultimaAlertaActiva := false }

def vehiculoConZonaEjB : VehiculoB := { vehiculoEjB with zonaSegura := some zonaEjB }

def zonaReqEjB : ZonaRequestB :=
  { nombre := some "Oficina", limite_m := some 30, diasAccion := some ["MA"],
    horaInicio := some "09:00", horaFin := some "18:00", activo := true,
    forzarSobreEscritura := false }

/-- C6 counterexample: in implementation B a configure call without the
overwrite flag on a vehicle that already has an enabled zone is answered
with a 409 error that does not carry the stored zone, instead of returning
the existing zone for confirmation. -/
theorem c6_contraejemplo :
    configurarZonaSeguraB vehiculoConZonaEjB zonaReqEjB
        (.ok ⟨19, -99, some 0, "2024-01-01T00:00:00Z", "2024-01-01T00:00:00-06:00"⟩)
      = (vehiculoConZonaEjB, RespConfB.yaConfigurada409) := rfl

/-- C6 (amended): in implementation A, a valid configure request with
forzarSobreEscritura = false against an enabled stored zone is answered with
the stored zone summary for confirmation, with no mutation of the vehicle and
no reset of the geofence state.  In implementation B the same situation (for
any stored zone, enabled or not) is answered with a 409 error that does not
include the zone; the vehicle is also left unchanged there. -/
theorem c6_enmendada :
    (∀ (config : VehiculoA) (e : EstadoZona) (req : ZonaRequest)
        (pos : Except Unit (Option Centro)) (z : ZonaA) (limite : Rat)
        (dias : List String) (act : Bool),
      config.activo = true → config.uniqueId ≠ none →
      req.nombre.getD "" ≠ "" →
      req.limite_m = some limite → 20 ≤ limite → limite ≤ 40 →
      req.diasAccion = some dias → dias ≠ [] →
      dias.filter (fun d => ¬ diasValidos.contains d) = [] →
      req.horaInicio.getD "" ≠ "" → req.horaFin.getD "" ≠ "" →
      req.activo = some act →
      config.zonaSegura = some z → z.activo = true →
      req.forzarSobreEscritura = false →
      configurarZonaSeguraA config e req pos
        = (config, e, RespConfA.requiereConfirmacion z.resumen)) ∧
    (∀ (v : VehiculoB) (req : ZonaRequestB) (pos : Except Unit PosB)
        (z : ZonaB) (limite : Int) (dias : List String),
      req.limite_m = some limite → 20 ≤ limite → limite ≤ 40 →
      req.diasAccion = some dias → dias ≠ [] →
      dias.filter (fun d => ¬ diasValidos.contains d) = [] →
      req.horaInicio.getD "" ≠ "" → req.horaFin.getD "" ≠ "" →
      v.zonaSegura = some z → req.forzarSobreEscritura = false →
      configurarZonaSeguraB v req pos = (v, RespConfB.yaConfigurada409)) := by
  constructor
  · intro config e req pos z limite dias act h1 h2 hnom hlim hlo hhi hdias hne hval hhIni
      hhFin hact hz hza hf
    have hrange : ¬(limite < 20 ∨ 40 < limite) := by
      rw [not_or, not_lt, not_lt]
      exact ⟨hlo, hhi⟩
    have hempty : dias.isEmpty = false := by
      cases dias with
      | nil => exact absurd rfl hne
      | cons d ds => rfl
    simp [configurarZonaSeguraA, h1, h2, hnom, hlim, hrange, hdias, hempty, hval,
      hhIni, hhFin, hact, hz, hza, hf]
    intro x hx
    by_contra hxv
    have hmem : x ∈ dias.filter (fun d => ¬ diasValidos.contains d) :=
      List.mem_filter.mpr ⟨hx, by simpa using hxv⟩
    rw [hval] at hmem
    simp at hmem
  · intro v req pos z limite dias hlim hlo hhi hdias hne hval hhIni hhFin hz hf
    have hrange : ¬(limite < 20 ∨ 40 < limite) := by
      rw [not_or, not_lt, not_lt]
      exact ⟨hlo, hhi⟩
    have hempty : dias.isEmpty = false := by
      cases dias with
      | nil => exact absurd rfl hne
      | cons d ds => rfl
    simp [configurarZonaSeguraB, hlim, hrange, hdias, hempty, hval, hhIni, hhFin, hz, hf]
    intro x hx
    by_contra hxv
    have hmem : x ∈ dias.filter (fun d => ¬ diasValidos.contains d) :=
      List.mem_filter.mpr ⟨hx, by simpa using hxv⟩
    rw [hval] at hmem
    simp at hmem

theorem c6_enmendada_witness :
    configurarZonaSeguraA vehiculoConZonaEjA EstadoZona.dentro zonaReqEj (.error ())
      = (vehiculoConZonaEjA, EstadoZona.dentro,
          RespConfA.requiereConfirmacion zonaEjA.resumen) :=
  c6_enmendada.1 vehiculoConZonaEjA EstadoZona.dentro zonaReqEj (.error ())
    zonaEjA 25 ["LU", "MA"] true rfl (by decide) (by decide) rfl (by decide) (by decide)
    rfl (by decide) (by decide) (by decide) (by decide) rfl rfl rfl rfl

/- ========== incident handlers ========== -/

inductive RespCerrarA
  | badResultado400
  | sinUniqueId409
  | errorReanudar500
  | ok (reanudoMotor : Bool) (comandoId : Option Nat)
deriving DecidableEq

/-- POST siniestro/cerrar, implementation A, src/index.js lines 1513-1642.
If ESTADO_CORTE is cortado the handler first sends engineResume; a dispatch
failure is answered with a 500 before anything is written (lines 1541-1563),
so the incident record and the cutoff state are untouched.  On success the
incident is closed preserving causa/canal/horaInicio, recording horaCierre
and the best-effort position snapshot (lines 1598-1608). -/
def cerrarSiniestroA (config : VehiculoA) (estadoCorte : EstadoCorte)
    (resultado : Option String) (reanudar : Except Unit Nat)
    (posicion : Except Unit (Option UbicacionCierre)) (ahora : String) :
    VehiculoA × EstadoCorte × RespCerrarA :=
  if ¬ (resultado = some "recuperado" ∨ resultado = some "no_recuperado") then
    (config, estadoCorte, .badResultado400)
  else if config.uniqueId = none then (config, estadoCorte, .sinUniqueId409)
  else
    match estadoCorte, reanudar with
    | .cortado, .error _ => (config, estadoCorte, .errorReanudar500)
    | e, r =>
      let resumen : EstadoCorte × Bool × Option Nat :=
        match e, r with
        | .cortado, .ok cid => (EstadoCorte.normal, true, some cid)
        | e2, _ => (e2, false, none)
      let ubicacion : Option UbicacionCierre :=
        match posicion with
        | .ok (some u) => some u
        | _ => none
      let prev := config.siniestro
      let siniestroNuevo : SiniestroA :=
        { activo := false
          causa := prev.bind SiniestroA.causa
          canal := prev.bind SiniestroA.canal
          horaInicio := truthyStr (prev.bind SiniestroA.horaInicio)
          horaCierre := some ahora
          resultado := resultado
          ultimaUbicacionCierre := ubicacion }
      ({ config with modoSiniestro := false, siniestro := some siniestroNuevo },
        resumen.1, .ok resumen.2.1 resumen.2.2)

inductive RespCerrarB
  | sinSiniestro409
  | ok (ubicacion : Option PosB)
deriving DecidableEq

/-- POST siniestro/cerrar, implementation B, src/index.js lines 2308-2369.
The incident is closed first (lines 2323-2325); the resume is attempted only
when the request body carries reanudarMotor and a device exists, and its
failure is merely logged (lines 2343-2350): the close still succeeds. -/
def cerrarSiniestroB (v : VehiculoB) (resultado : Option String)
    (reanudarMotor : Bool) (posicion : Except Unit PosB)
    (reanudar : Except Unit Unit) (ahora : String) : VehiculoB × RespCerrarB :=
  match v.siniestro with
  | none => (v, .sinSiniestro409)
  | some s =>
    if s.activo = false then (v, .sinSiniestro409)
    else
      let s2 : SiniestroB :=
        { s with
            activo := false
            resultado := truthyStr resultado
            cerradoEn := some ahora }
      let v2 : VehiculoB := { v with siniestro := some s2 }
      let ubic : Option PosB := posicion.toOption
      if reanudarMotor ∧ v.traccarDeviceId ≠ none then
        match reanudar with
        | .ok _ => ({ v2 with estado_corte := some EstadoCorte.normal }, .ok ubic)
        | .error _ => (v2, .ok ubic)
      else (v2, .ok ubic)

inductive RespIniciarA
  | inactivo409
  | ok (yaEnSiniestro : Bool)
deriving DecidableEq

/-- POST siniestro/iniciar, implementation A, src/index.js lines 1464-1510:
the siniestro record is rebuilt from scratch with horaInicio set to the
current timestamp, also when an incident was already open
(yaEnSiniestro). -/
def iniciarSiniestroA (config : VehiculoA) (causa canal : Option String)
    (ahora : String) : VehiculoA × RespIniciarA :=
  if config.activo = false then (config, .inactivo409)
  else
    ({ config with
        modoSiniestro := true
        siniestro := some
          { activo := true, causa := truthyStr causa, canal := truthyStr canal,
            horaInicio := some ahora, horaCierre := none, resultado := none,
            ultimaUbicacionCierre := none } },
      .ok config.modoSiniestro)

inductive RespIniciarB
  | inactivo409
  | ok
deriving DecidableEq

/-- POST siniestro/iniciar, implementation B, src/index.js lines 2248-2306:
the siniestro record is likewise rebuilt with iniciadoEn set to the current
timestamp on every call. -/
def iniciarSiniestroB (v : VehiculoB) (causa canal detalle : Option String)
    (ahora : String) : VehiculoB × RespIniciarB :=
  if v.activo = false then (v, .inactivo409)
  else
    ({ v with
        siniestro := some
          { activo := true, causa := truthyStr causa, canal := truthyStr canal,
            detalle := truthyStr detalle, iniciadoEn := some ahora,
            cerradoEn := none, resultado := none } },
      .ok)

/- ========== claim C4 ========== -/

def vehiculoCortadoEjB : VehiculoB :=
  { vehiculoEjB with
      estado_corte := some EstadoCorte.cortado
      siniestro := some
        { activo := true, causa := some "robo", canal := some "tel",
          detalle := none, iniciadoEn := some "2024-03-01T00:00:00Z",
          cerradoEn := none, resultado := none } }

/-- C4 counterexample: in implementation B, closing an incident on a vehicle
whose estado_corte is cortado while the resume dispatch fails still answers
ok and marks the incident closed (activo = false, cerradoEn written); no
UpstreamUnavailable error is returned and the close is not aborted. -/
theorem c4_contraejemplo :
    cerrarSiniestroB vehiculoCortadoEjB (some "recuperado") true (.error ()) (.error ())
        "2024-03-02T00:00:00Z"
      = ({ vehiculoCortadoEjB with
            siniestro := some
              { activo := false, causa := some "robo", canal := some "tel",
                detalle := none, iniciadoEn := some "2024-03-01T00:00:00Z",
                cerradoEn := some "2024-03-02T00:00:00Z",
                resultado := some "recuperado" } },
          RespCerrarB.ok none) := rfl

/-- C4 (amended): implementation A behaves as claimed: with CutoffState
cortado and a failing resume dispatch, close answers a 500, the vehicle
record (hence the incident) is unchanged and the cutoff state stays cortado.
Implementation B instead closes the incident and answers ok even when the
requested resume dispatch fails; only the cutoff state is left unchanged
there. -/
theorem c4_enmendada :
    (∀ (config : VehiculoA) (resultado : Option String)
        (pos : Except Unit (Option UbicacionCierre)) (ahora : String),
      (resultado = some "recuperado" ∨ resultado = some "no_recuperado") →
      config.uniqueId ≠ none →
      cerrarSiniestroA config EstadoCorte.cortado resultado (.error ()) pos ahora
        = (config, EstadoCorte.cortado, RespCerrarA.errorReanudar500)) ∧
    (∀ (v : VehiculoB) (s : SiniestroB) (resultado : Option String)
        (pos : Except Unit PosB) (ahora : String),
      v.siniestro = some s → s.activo = true →
      cerrarSiniestroB v resultado true pos (.error ()) ahora
        = ({ v with
              siniestro := some
                { s with
                    activo := false
                    resultado := truthyStr resultado
                    cerradoEn := some ahora } },
            RespCerrarB.ok pos.toOption)) := by
  constructor
  · intro config resultado pos ahora hres huid
    unfold cerrarSiniestroA
    rw [if_neg (not_not_intro hres), if_neg huid]
  · intro v s resultado pos ahora hs hact
    simp only [cerrarSiniestroB, hs, hact]
    norm_num

def vehiculoSiniestroEjA : VehiculoA :=
  { vehiculoEjA with
      modoSiniestro := true
      siniestro := some
        { activo := true, causa := some "robo", canal := some "app",
          horaInicio := some "2024-03-01T00:00:00Z", horaCierre := none,
          resultado := none, ultimaUbicacionCierre := none } }

theorem c4_enmendada_witness :
    cerrarSiniestroA vehiculoSiniestroEjA EstadoCorte.cortado (some "recuperado")
        (.error ()) (.ok none) "2024-03-02T00:00:00Z"
      = (vehiculoSiniestroEjA, EstadoCorte.cortado, RespCerrarA.errorReanudar500) :=
  c4_enmendada.1 vehiculoSiniestroEjA (some "recuperado") (.ok none)
    "2024-03-02T00:00:00Z" (Or.inl rfl) (by decide)

/- ========== claim C7 ========== -/

/-- C7 counterexample: re-opening an incident that is already open does not
preserve the original startedAt in implementation A: the stored horaInicio
changes from the original opening time to the time of the second call. -/
theorem c7_contraejemplo :
    vehiculoSiniestroEjA.modoSiniestro = true ∧
    vehiculoSiniestroEjA.siniestro.bind SiniestroA.horaInicio
      = some "2024-03-01T00:00:00Z" ∧
    ((iniciarSiniestroA vehiculoSiniestroEjA (some "choque") (some "tel")
        "2024-04-05T00:00:00Z").1.siniestro.bind SiniestroA.horaInicio)
      = some "2024-04-05T00:00:00Z" :=
  ⟨rfl, rfl, rfl⟩

/-- C7 (amended): in both implementations every open call, also a re-open on
an already-open incident, rebuilds the record: cause and channel are
overwritten and startedAt is overwritten with the current timestamp as well
(the close fields are reset to null). -/
theorem c7_enmendada :
    (∀ (config : VehiculoA) (causa canal : Option String) (ahora : String),
      config.activo = true →
      ((iniciarSiniestroA config causa canal ahora).1.siniestro.bind SiniestroA.horaInicio)
          = some ahora ∧
        ((iniciarSiniestroA config causa canal ahora).1.siniestro.map SiniestroA.causa)
          = some (truthyStr causa) ∧
        ((iniciarSiniestroA config causa canal ahora).1.siniestro.map SiniestroA.canal)
          = some (truthyStr canal) ∧
        ((iniciarSiniestroA config causa canal ahora).1.siniestro.map SiniestroA.horaCierre)
          = some none) ∧
    (∀ (v : VehiculoB) (causa canal detalle : Option String) (ahora : String),
      v.activo = true →
      ((iniciarSiniestroB v causa canal detalle ahora).1.siniestro.bind SiniestroB.iniciadoEn)
          = some ahora ∧
        ((iniciarSiniestroB v causa canal detalle ahora).1.siniestro.map SiniestroB.causa)
          = some (truthyStr causa) ∧
        ((iniciarSiniestroB v causa canal detalle ahora).1.siniestro.map SiniestroB.canal)
          = some (truthyStr canal)) := by
  constructor
  · intro config causa canal ahora h
    simp [iniciarSiniestroA, h]
  · intro v causa canal detalle ahora h
    simp [iniciarSiniestroB, h]

theorem c7_enmendada_witness :
    ((iniciarSiniestroA vehiculoSiniestroEjA (some "choque") (some "tel")
        "2024-04-05T00:00:00Z").1.siniestro.bind SiniestroA.horaInicio)
      = some "2024-04-05T00:00:00Z" :=
  (c7_enmendada.1 vehiculoSiniestroEjA (some "choque") (some "tel")
    "2024-04-05T00:00:00Z" rfl).1

/- ========== claim C8 ========== -/

def vehiculoInactivoEjA : VehiculoA :=
  { vehiculoEjA with activo := false, motivoInactivacion := some "impago" }

def vehiculoInactivoEjB : VehiculoB :=
  { vehiculoEjB with activo := false, motivo_baja := some "impago" }

/-- C8 counterexample: implementation B's resume handler never consults
activo: on an inactive vehicle with a device the resume command is dispatched
(third component true), the response is ok and estado_corte is overwritten
with normal. -/
theorem c8_contraejemplo :
    vehiculoInactivoEjB.activo = false ∧
    reanudarB vehiculoInactivoEjB (.ok ())
      = ({ vehiculoInactivoEjB with estado_corte := some EstadoCorte.normal },
          RespReanudarB.ok, true) :=
  ⟨rfl, rfl⟩

/-- C8 (amended): in implementation A an inactive vehicle is rejected with a
409 by the location query, cutoff, resume and zone-configuration handlers
(nothing dispatched, nothing mutated), while reactivation and device release
are accepted.  In implementation B the location query and the cutoff are
likewise rejected, but the resume handler has no inactive check: it
dispatches the command and sets estado_corte to normal. -/
theorem c8_enmendada :
    (∀ (config : VehiculoA) (fetch : Except Unit (Option PosicionA)),
      config.activo = false → ubicacionA config fetch = (.inactivo409, false)) ∧
    (∀ (config : VehiculoA) (e : EstadoCorte) (pos : Except Unit (Option PosicionA))
        (cmd : Except Unit Nat),
      config.activo = false → corteA config e pos cmd = (e, .inactivo409, false)) ∧
    (∀ (config : VehiculoA) (e : EstadoCorte) (cmd : Except Unit Nat),
      config.activo = false → reanudarA config e cmd = (e, .inactivo409, false)) ∧
    (∀ (config : VehiculoA) (e : EstadoZona) (req : ZonaRequest)
        (pos : Except Unit (Option Centro)),
      config.activo = false →
      configurarZonaSeguraA config e req pos = (config, e, RespConfA.inactivo409)) ∧
    (∀ (config : VehiculoA) (ahora : String),
      config.activo = false → config.uniqueId ≠ none →
      reactivarA config ahora
        = ({ config with
              activo := true
              motivoInactivacion := none
              fechaReactivacion := some ahora }, RespReactivarA.ok)) ∧
    (∀ (config : VehiculoA) (ahora : String) (uid : String),
      config.activo = false → config.uniqueId = some uid →
      liberarDispositivoA config ahora
        = ({ config with
              uniqueId := none
              fechaLiberacionUniqueId := some ahora }, RespLiberarA.ok uid)) ∧
    (∀ (v : VehiculoB) (fetch : Except Unit PosB),
      v.activo = false → ubicacionB v fetch = (.inactivo409, false)) ∧
    (∀ (v : VehiculoB) (pos : Except Unit PosB) (cmd : Except Unit Unit),
      v.activo = false → corteB v pos cmd = (v, .inactivo409, false)) ∧
    (∀ (v : VehiculoB),
      v.activo = false → v.traccarDeviceId ≠ none →
      reanudarB v (.ok ())
        = ({ v with estado_corte := some EstadoCorte.normal },
            RespReanudarB.ok, true)) := by
  refine ⟨?_, ?_, ?_, ?_, ?_, ?_, ?_, ?_, ?_⟩
  · intro config fetch h
    simp [ubicacionA, h]
  · intro config e pos cmd h
    simp [corteA, h]
  · intro config e cmd h
    simp [reanudarA, h]
  · intro config e req pos h
    simp [configurarZonaSeguraA, h]
  · intro config ahora h1 h2
    simp [reactivarA, h1, h2]
  · intro config ahora uid h1 h2
    simp [liberarDispositivoA, h1, h2]
  · intro v fetch h
    simp [ubicacionB, h]
  · intro v pos cmd h
    simp [corteB, h]
  · intro v h1 h2
    simp [reanudarB, h2]

theorem c8_enmendada_witness :
    reanudarA vehiculoInactivoEjA EstadoCorte.normal (.ok 9)
      = (EstadoCorte.normal, RespReanudarA.inactivo409, false) :=
  c8_enmendada.2.2.1 vehiculoInactivoEjA EstadoCorte.normal (.ok 9) rfl

/- ========== claim C10 ========== -/

/-- String.padStart(3, "0") applied to the unit number, src/index.js line
432. -/
def padStart3 (s : String) : String :=
  if s.length < 3 then String.mk (List.replicate (3 - s.length) '0') ++ s else s

/-- Body of POST /api/vehiculos as implementation A reads it. -/
structure AltaRequest where
  contratoId : Option String
  tipoCliente : Option String
  nombreTitular : Option String
  uniqueId : Option String
  aliasUnidad : Option String
deriving DecidableEq

inductive RespAlta
  | faltanCampos400
  | tipoInvalido400
  | uniqueIdDuplicado409 (vehiculoId : String)
  | idDuplicado409 (vehiculoId : String)
  | errorDevice500
  | ok (vehiculoId : String)
deriving DecidableEq

/-- POST /api/vehiculos, implementation A, src/index.js lines 379-502, on the
VEHICULOS registry modelled as an entry list in insertion order.  The
duplicate-uniqueId check (lines 397-407) runs before the Traccar device call
(line 450) and before any write; the Bool records whether the device call was
reached.  ESTADO_CORTE and ESTADO_ZONA are likewise written only on the
success path (lines 473-474). -/
def altaVehiculoA (vehiculos : List (String × VehiculoA)) (req : AltaRequest)
    (device : Except Unit Nat) (ahora : String) :
    List (String × VehiculoA) × RespAlta × Bool :=
  match truthyStr req.contratoId, truthyStr req.tipoCliente,
      truthyStr req.nombreTitular, truthyStr req.uniqueId with
  | some contratoId, some tipoCliente, some nombreTitular, some uniqueId =>
    if ¬ (tipoCliente = "individual" ∨ tipoCliente = "empresa") then
      (vehiculos, .tipoInvalido400, false)
    else
      match vehiculos.find? (fun p => p.2.uniqueId = some uniqueId) with
      | some existente => (vehiculos, .uniqueIdDuplicado409 existente.1, false)
      | none =>
        let vehiculosContrato := vehiculos.filter (fun p => p.2.contratoId = contratoId)
        let idNum : String × Nat :=
          if vehiculosContrato.isEmpty then
            (if tipoCliente = "individual" then contratoId else contratoId ++ "-001", 1)
          else
            let maxNum := vehiculosContrato.foldl
              (fun m p => if p.2.numeroUnidad > m then p.2.numeroUnidad else m) 1
            (contratoId ++ "-" ++ padStart3 (toString (maxNum + 1)), maxNum + 1)
        if (vehiculos.find? (fun p => p.1 = idNum.1)).isSome then
          (vehiculos, .idDuplicado409 idNum.1, false)
        else
          match device with
          | .error _ => (vehiculos, .errorDevice500, true)
          | .ok _ =>
            let nuevo : VehiculoA :=
              { contratoId := contratoId, tipoCliente := tipoCliente,
                numeroUnidad := idNum.2, nombreTitular := nombreTitular,
                aliasUnidad :=
                  (truthyStr req.aliasUnidad).getD ("Unidad " ++ toString idNum.2),
                uniqueId := some uniqueId, activo := true, motivoInactivacion := none,
                fechaAlta := some ahora, fechaInactivacion := none,
                fechaReactivacion := none, fechaCambioUniqueId := none,
                fechaLiberacionUniqueId := none, zonaSegura := none,
                modoSiniestro := false, siniestro := none }
            (vehiculos ++ [(idNum.1, nuevo)], .ok idNum.1, true)
  | _, _, _, _ => (vehiculos, .faltanCampos400, false)

/-- C10: a registration request whose uniqueId is already assigned to an
existing vehicle is answered with a 409 conflict naming that vehicle, leaves
the registry unchanged and never reaches the device-creation call on the
telemetry provider. -/
theorem c10_uniqueId_duplicado :
    ∀ (vehiculos : List (String × VehiculoA)) (req : AltaRequest)
      (device : Except Unit Nat) (ahora : String)
      (cid tipo nom uid : String) (entry : String × VehiculoA),
      truthyStr req.contratoId = some cid → truthyStr req.tipoCliente = some tipo →
      truthyStr req.nombreTitular = some nom → truthyStr req.uniqueId = some uid →
      (tipo = "individual" ∨ tipo = "empresa") →
      vehiculos.find? (fun p => p.2.uniqueId = some uid) = some entry →
      altaVehiculoA vehiculos req device ahora
        = (vehiculos, RespAlta.uniqueIdDuplicado409 entry.1, false) := by
  intro vehiculos req device ahora cid tipo nom uid entry h1 h2 h3 h4 h5 h6
  unfold altaVehiculoA
  simp only [h1, h2, h3, h4]
  rw [if_neg (not_not_intro h5), h6]

def altaReqEj : AltaRequest :=
  { contratoId := some "C-9", tipoCliente := some "individual",
    nombreTitular := some "Nora", uniqueId := some "imei-1", aliasUnidad := none }

theorem c10_uniqueId_duplicado_witness :
    altaVehiculoA [("C-1", vehiculoEjA)] altaReqEj (.ok 11) "2024-05-01"
      = ([("C-1", vehiculoEjA)], RespAlta.uniqueIdDuplicado409 "C-1", false) :=
  c10_uniqueId_duplicado [("C-1", vehiculoEjA)] altaReqEj (.ok 11) "2024-05-01"
    "C-9" "individual" "Nora" "imei-1" ("C-1", vehiculoEjA)
    rfl rfl rfl rfl (Or.inl rfl) (by decide)
